import Mathlib

/-!
Verification of the notification decision core of the AI Calendar Assistant
(src/main.py): duration parsing, timetable resolution, the smart-notification
policy with its throttling state, and the LLM composition client.

Times of day are modelled as seconds; instants as integer seconds since the
epoch (all computations in a fixed-offset timezone, matching a configuration
such as UTC where `datetime.combine(date, t, tzinfo=TZ)` and
`datetime.now(TZ)` agree).  Python exceptions are modelled with `Except`.
-/

namespace AICal

/-- Python exceptions that the modelled code can raise. -/
inductive PyErr where
  | valueError  -- strptime on a malformed time string
  | typeError   -- datetime.combine applied to a str / timedelta of None
  | keyError    -- response.json()['choices'] on a body without that key
deriving DecidableEq, Repr

/-- A timetable entry as produced by `load_timetable`: the raw `time` string,
the task name, the parsed `duration_minutes` and the notes. -/
structure Entry where
  time : String
  task : String
  duration_minutes : Option Nat
  notes : String
deriving DecidableEq, Repr

/-- The mutable module state threaded through policy evaluations:
`last_in_task_notification_time` (seconds since epoch) and
`sleep_notification_count`. -/
structure NotifState where
  last : Int
  sleep_count : Nat
deriving DecidableEq, Repr

/-- The configuration values the decision core consumes. -/
structure Config where
  notification_interval_seconds : Int
  minutes_before_task : Int
  grace_minutes_after_start : Int
deriving DecidableEq, Repr

/-- The defaults from config loading: 1800 s interval, 15 min lead, 2 min grace. -/
def defaultConfig : Config := ⟨1800, 15, 2⟩

/-- ASCII lower-casing, as Python `str.lower` on the names appearing here. -/
def strLower (s : String) : String := ⟨s.data.map Char.toLower⟩

/-- Python `s[:n]`. -/
def strTake (s : String) (n : Nat) : String := ⟨s.data.take n⟩

/-- Python `pat in s` on the char-list level. -/
def subList (pat : List Char) : List Char → Bool
  | [] => pat.isEmpty
  | c :: rest => pat.isPrefixOf (c :: rest) || subList pat rest

/-- Python `pat in s` (substring containment). -/
def strContains (s pat : String) : Bool := subList pat.data s.data

/-- Numeric value of an ASCII digit. -/
def digitVal (c : Char) : Option Nat :=
  if c.isDigit then some (c.toNat - 48) else none

/-- One step of `parse_duration`'s loop: state is (total_minutes, num), with
`none` for an empty accumulated digit string. -/
def durStep (st : Nat × Option Nat) (c : Char) : Nat × Option Nat :=
  if c.isDigit then (st.1, some ((st.2.getD 0) * 10 + (c.toNat - 48)))
  else if c = 'h' then
    match st.2 with
    | some v => (st.1 + v * 60, none)
    | none => (st.1, none)
  else if c = 'm' then
    match st.2 with
    | some v => (st.1 + v, none)
    | none => (st.1, none)
  else st

/-- `parse_duration` from src/main.py: empty input yields `none`; otherwise
digit runs followed by `h` or `m` accumulate minutes, all else is ignored,
and a trailing digit run is discarded. -/
def parse_duration (s : String) : Option Nat :=
  if s = "" then none
  else some (s.data.foldl durStep (0, none)).1

/-- An entry as built by `load_timetable` from the raw fields. -/
def loadEntry (time task dur notes : String) : Entry :=
  ⟨time, task, parse_duration dur, notes⟩

/-- Minutes parser for the minute field of `%H:%M` (one or two digits). -/
def parseMinutes : List Char → Option Nat
  | [c] => digitVal c
  | [c1, c2] => do
      let d1 ← digitVal c1
      let d2 ← digitVal c2
      pure (d1 * 10 + d2)
  | _ => none

/-- `datetime.strptime(s, "%H:%M")` reduced to minutes since midnight:
one or two digits of hour (0..23), a colon, one or two digits of minute
(0..59), nothing else.  `none` models the raised ValueError. -/
def strptimeHM (s : String) : Option Nat :=
  match s.data with
  | c1 :: c2 :: ':' :: rest =>
    match digitVal c1, digitVal c2, parseMinutes rest with
    | some h1, some h2, some m =>
      if h1 * 10 + h2 ≤ 23 ∧ m ≤ 59 then some ((h1 * 10 + h2) * 60 + m) else none
    | _, _, _ => none
  | c1 :: ':' :: rest =>
    match digitVal c1, parseMinutes rest with
    | some h, some m => if m ≤ 59 then some (h * 60 + m) else none
    | _, _ => none
  | _ => none

/-- Lexicographic comparison of char lists by code point, the order Python
uses for `str` comparison. -/
def charListLe : List Char → List Char → Bool
  | [], _ => true
  | _ :: _, [] => false
  | a :: as, b :: bs =>
    if a.toNat < b.toNat then true
    else if b.toNat < a.toNat then false
    else charListLe as bs

/-- Python `a <= b` on strings. -/
def strLe (a b : String) : Bool := charListLe a.data b.data

/-- Stable insertion by `time` string (lexicographic), the order used by
`sorted(timetable, key=lambda x: x['time'])`. -/
def insertByTime (e : Entry) : List Entry → List Entry
  | [] => [e]
  | x :: xs => if strLe e.time x.time then e :: x :: xs else x :: insertByTime e xs

/-- `sorted(timetable, key=lambda x: x['time'])` (a stable sort). -/
def sortByTime : List Entry → List Entry
  | [] => []
  | e :: rest => insertByTime e (sortByTime rest)

/-- The start instant of an entry on the day beginning at `dayStart`
(`datetime.combine(now.date(), strptime(entry.time))`). -/
def startAt (dayStart : Int) (e : Entry) : Option Int :=
  (strptimeHM e.time).map fun t => dayStart + 60 * t

/-- The window end of an entry given the remaining sorted entries:
start + duration when a nonzero duration is present, else the next entry's
start, else 23:59:59 of the day.  `none` models a ValueError while parsing
the time string consulted. -/
def entryEndAt (dayStart : Int) (e : Entry) (rest : List Entry) : Option Int :=
  match e.duration_minutes with
  | some d =>
    if d ≠ 0 then (startAt dayStart e).map (· + 60 * d)
    else
      match rest with
      | e' :: _ => startAt dayStart e'
      | [] => some (dayStart + 86399)
  | none =>
    match rest with
    | e' :: _ => startAt dayStart e'
    | [] => some (dayStart + 86399)

/-- The scan loop of `get_current_active_timetable_entry`.  The `isFirst`
flag records whether the current entry is at index 0.  The unreachable-by-
intent `elif` at the exact start of a non-first entry evaluates
`datetime.combine(date, <str>)`, hence raises a TypeError when its first two
conjuncts hold. -/
def scanActive (dayStart now : Int) : List Entry → Bool → Except PyErr (Option Entry)
  | [], _ => .ok none
  | e :: rest, isFirst =>
    match startAt dayStart e with
    | none => .error .valueError
    | some start =>
      match entryEndAt dayStart e rest with
      | none => .error .valueError
      | some en =>
        if start ≤ now ∧ now ≤ en then .ok (some e)
        else if isFirst = false ∧ now = start then .error .typeError
        else scanActive dayStart now rest false

/-- `get_current_active_timetable_entry` from src/main.py: sort by time
string, then scan for the first entry whose window contains `now`. -/
def get_current_active_timetable_entry (tt : List Entry) (now dayStart : Int) :
    Except PyErr (Option Entry) :=
  scanActive dayStart now (sortByTime tt) true

/-- Python `int(x / 60)` for an integer number of seconds `x`: truncation
toward zero. -/
def pyDiv60 (x : Int) : Int := if 0 ≤ x then x / 60 else -((-x) / 60)

/-- The upcoming-task scan of `get_smart_notification` (lines 302-312):
returns the first entry whose start is at least `now - grace`, together with
the last `task_dt_local` assigned by the loop, the truncated minutes until
that start, and the `is_upcoming_task_just_started` flag.  The third
argument carries the `task_dt_local` of the previous iteration, which is the
value left behind when no entry qualifies. -/
def scanUpcoming (dayStart now grace : Int) :
    List Entry → Int → Except PyErr (Option Entry × Int × Int × Bool)
  | [], prev => .ok (none, prev, 0, false)
  | e :: rest, _ =>
    match startAt dayStart e with
    | none => .error .valueError
    | some td =>
      if td ≥ now - grace * 60 then
        .ok (some e, td, pyDiv60 (td - now), decide (now ≥ td ∧ now - td ≤ grace * 60))
      else scanUpcoming dayStart now grace rest td

/-- A transport outcome for one HTTP attempt of the LLM client. -/
inductive RBody where
  | badJson (msg : String)          -- body that fails response.json()
  | json (content : Option String)  -- parsed body; `none` lacks choices[0].message.content
deriving DecidableEq, Repr

/-- The observable result of one `requests.post` attempt. -/
inductive HttpResult where
  | netError (msg : String)   -- RequestException raised by post (timeout, connection, ...)
  | httpError (msg : String)  -- raise_for_status on a non-2xx response
  | ok (body : RBody)         -- a 2xx response with the given body
deriving DecidableEq, Repr

/-- The retry loop of `get_llm_response`: attempts run while fuel lasts;
caught RequestExceptions retry until the final attempt, which returns the
diagnostic string; a 2xx body without the expected keys raises KeyError. -/
def llmAttempts (transport : Nat → HttpResult) (retries : Nat) :
    Nat → Nat → Except PyErr String
  | _, 0 => .ok "Max retries reached for LLM API."
  | attempt, fuel + 1 =>
    match transport attempt with
    | .ok (.json (some c)) => .ok c
    | .ok (.json none) => .error .keyError
    | .ok (.badJson m) =>
      if attempt + 1 < retries then llmAttempts transport retries (attempt + 1) fuel
      else .ok ("API error: " ++ strTake m 50 ++ "... (Check app.log for details)")
    | .netError m =>
      if attempt + 1 < retries then llmAttempts transport retries (attempt + 1) fuel
      else .ok ("API error: " ++ strTake m 50 ++ "... (Check app.log for details)")
    | .httpError m =>
      if attempt + 1 < retries then llmAttempts transport retries (attempt + 1) fuel
      else .ok ("API error: " ++ strTake m 50 ++ "... (Check app.log for details)")

/-- `get_llm_response` from src/main.py, with the network abstracted as a
transport mapping the attempt number to its outcome.  The prompt does not
influence the modelled control flow. -/
def get_llm_response (_prompt : String) (apiKey : Option String)
    (transport : Nat → HttpResult) (retries : Nat) : Except PyErr String :=
  match apiKey with
  | none => .ok "LLM unavailable: Set OPENROUTER_API_KEY in .env."
  | some _ => llmAttempts transport retries 0 retries

/-- The outcome of the branch selection of `get_smart_notification` before
any message dispatch: nothing, a ready immediate notification, or a compose
request (title, prompt) — each together with the updated state. -/
inductive Decision where
  | silent : NotifState → Decision
  | immediate : String → String → NotifState → Decision
  | compose : String → String → NotifState → Decision
deriving Repr

/-- The `"Check-in: <task>"` title. -/
def checkinTitle (name : String) : String := "Check-in: " ++ name

/-- The `"Upcoming: <task>"` title. -/
def upcomingTitle (name : String) : String := "Upcoming: " ++ name

/-- The fixed immediate sleep message. -/
def sleepMsg : String := "It's sleep time! Time to unwind and rest for tomorrow!"

/-- `current_active_task_name`: the active entry's task, else the sentinel. -/
def activeTaskName (active : Option Entry) : String :=
  match active with
  | some e => e.task
  | none => "no specific task"

/-- The notes of the active entry (empty when there is none). -/
def activeTaskNotes (active : Option Entry) : String :=
  match active with
  | some e => e.notes
  | none => ""

/-- `time_description` of lines 344-351 (only the branch actually reached
computes it; its value is only read by the upcoming compose prompt). -/
def timeDescription (js : Bool) (now ref mins : Int) : String :=
  if js then
    if pyDiv60 (now - ref) = 0 then "just started"
    else "started " ++ toString (pyDiv60 (now - ref)) ++ " minutes ago"
  else if mins = 0 then "is starting now"
  else "in " ++ toString mins.natAbs ++ " minutes"

/-- The branch logic of `get_smart_notification` (lines 314-366).  `ref` is
the `task_dt_local` left behind by the upcoming scan — also the reference
the active-sleep branch measures elapsed time from; `mins` and `js` are
`time_until_upcoming_task_minutes` and `is_upcoming_task_just_started`. -/
def policyDecision (cfg : Config) (active upc : Option Entry) (ref mins : Int)
    (js : Bool) (now : Int) (st : NotifState) : Decision :=
  if active.isSome = true ∧ strLower (activeTaskName active) ≠ "no specific task" then
    if strLower (activeTaskName active) = "sleep" ∧ st.sleep_count < 2 then
      if now - ref ≤ 0 ∨ (now - ref ≥ 15 * 60 ∧ st.sleep_count = 1) then
        .immediate "Current Task: Sleep" sleepMsg ⟨now, st.sleep_count + 1⟩
      else .silent st
    else
      if now - st.last ≥ cfg.notification_interval_seconds then
        .compose (checkinTitle (activeTaskName active))
          ("Current task: '" ++ activeTaskName active ++ "' with notes: '" ++
            activeTaskNotes active ++
            "'.\nProvide a concise (under 100 chars), encouraging check-in for this task.")
          ⟨now, st.sleep_count⟩
      else .silent st
  else
    match upc with
    | some u =>
      if (0 ≤ ref - now ∧ ref - now ≤ cfg.minutes_before_task * 60) ∨ js = true then
        if strLower u.task = "sleep" then
          .immediate "Time for Bed!"
            (if mins > 0 then "Scheduled to sleep in " ++ toString mins ++ " minutes. Wind down!"
             else "It's past " ++ u.time ++ ". Time to rest!")
            st
        else
          .compose (upcomingTitle u.task)
            ("Current task: '" ++ activeTaskName active ++ "'.\nNext task: '" ++ u.task ++
              "' at " ++ u.time ++ " (" ++ timeDescription js now ref mins ++
              ") with notes: '" ++ u.notes ++
              "'.\nGenerate a concise (under 100 chars), encouraging notification to transition to the next task.")
            st
      else .silent st
    | none => .silent st

/-- The dispatch of a compose decision (lines 370-379): call the client; a
nonempty return is sent verbatim; an empty one falls back to the fixed text
keyed by substring of the title (the upcoming fallback subscripts
`upcoming_task_entry`, a TypeError when it is `None`). -/
def dispatchCompose (apiKey : Option String) (transport : Nat → HttpResult)
    (upc : Option Entry) (activeName title prompt : String) (st' : NotifState) :
    Except PyErr (Option (String × String) × NotifState) :=
  match get_llm_response prompt apiKey transport 3 with
  | .error e => .error e
  | .ok r =>
    if r ≠ "" then .ok (some (title, r), st')
    else if strContains title "Upcoming:" then
      match upc with
      | some u => .ok (some (title, "Prepare for: " ++ u.task ++ " at " ++ u.time ++ "."), st')
      | none => .error .typeError
    else if strContains title "Check-in:" then
      .ok (some (title, "Doing: " ++ activeName ++ ". Keep it up!"), st')
    else .ok (none, st')

/-- `get_smart_notification` from src/main.py as one policy evaluation:
given the timetable, the instant `now`, the API key, the transport and the
state, produce the notification handed to `send_notification` (if any) and
the updated state, or the uncaught Python exception. -/
def get_smart_notification (cfg : Config) (tt : List Entry) (now : Int)
    (apiKey : Option String) (transport : Nat → HttpResult) (st : NotifState) :
    Except PyErr (Option (String × String) × NotifState) :=
  if tt.isEmpty then .ok (none, st)
  else
    let dayStart := now - now % 86400
    match get_current_active_timetable_entry tt now dayStart with
    | .error e => .error e
    | .ok active =>
      match scanUpcoming dayStart now cfg.grace_minutes_after_start (sortByTime tt) 0 with
      | .error e => .error e
      | .ok (upc, ref, mins, js) =>
        match policyDecision cfg active upc ref mins js now st with
        | .silent st' => .ok (none, st')
        | .immediate t m st' => .ok (some (t, m), st')
        | .compose t p st' =>
          dispatchCompose apiKey transport upc (activeTaskName active) t p st'

/-- A run of policy evaluations over one process lifetime: each tick supplies
`now` and a transport.  On an uncaught exception the run stops; the
notifications emitted before it are kept. -/
def runTicks (cfg : Config) (tt : List Entry) (apiKey : Option String) :
    List (Int × (Nat → HttpResult)) → NotifState →
    List (Option (String × String)) × Except PyErr NotifState
  | [], st => ([], .ok st)
  | (now, tr) :: rest, st =>
    match get_smart_notification cfg tt now apiKey tr st with
    | .error e => ([], .error e)
    | .ok (out, st') =>
      let next := runTicks cfg tt apiKey rest st'
      (out :: next.1, next.2)

/-- Whether an evaluation output is the immediate sleep notification. -/
def isSleepSend (out : Option (String × String)) : Bool :=
  match out with
  | some (t, _) => t = "Current Task: Sleep"
  | none => false

/-- Number of immediate sleep notifications in a run's outputs. -/
def countSleepSends (outs : List (Option (String × String))) : Nat :=
  outs.countP isSleepSend

/-- The message of a compose emission is constrained to be the client's
returned string when nonempty, else one of the two fallback shapes. -/
def prepForm (m : String) : Prop :=
  ∃ a b, m = "Prepare for: " ++ a ++ " at " ++ b ++ "."

/-- The check-in fallback shape. -/
def doingForm (m : String) : Prop :=
  ∃ a, m = "Doing: " ++ a ++ ". Keep it up!"

/-- What `get_smart_notification` can hand to the notifier as the message of
a compose decision, given the key and transport. -/
def msgSpec (apiKey : Option String) (transport : Nat → HttpResult) (m : String) : Prop :=
  ∃ r, (∃ p, get_llm_response p apiKey transport 3 = .ok r) ∧
    ((r ≠ "" ∧ m = r) ∨ (r = "" ∧ (prepForm m ∨ doingForm m)))

theorem data_append : ∀ (a b : String), (a ++ b).data = a.data ++ b.data
  | ⟨_⟩, ⟨_⟩ => rfl

theorem take_len_append (l₁ l₂ : List Char) : (l₁ ++ l₂).take l₁.length = l₁ := by
  induction l₁ with
  | nil => rfl
  | cons c cs ih => simp [ih]

theorem append_eq_lit (p n q : String) (h : p ++ n = q) :
    q.data.take p.data.length = p.data := by
  have hd : (p ++ n).data = q.data := by rw [h]
  rw [data_append] at hd
  rw [← hd, take_len_append]

theorem checkin_ne_sleepTitle (n : String) : checkinTitle n ≠ "Current Task: Sleep" :=
  fun h => absurd (append_eq_lit "Check-in: " n _ h) (by decide)

theorem upcoming_ne_sleepTitle (n : String) : upcomingTitle n ≠ "Current Task: Sleep" :=
  fun h => absurd (append_eq_lit "Upcoming: " n _ h) (by decide)

theorem checkin_ne_bedTitle (n : String) : checkinTitle n ≠ "Time for Bed!" :=
  fun h => absurd (append_eq_lit "Check-in: " n _ h) (by decide)

theorem upcoming_ne_bedTitle (n : String) : upcomingTitle n ≠ "Time for Bed!" :=
  fun h => absurd (append_eq_lit "Upcoming: " n _ h) (by decide)

theorem upcoming_ne_checkin (a b : String) : upcomingTitle a ≠ checkinTitle b := by
  intro h
  have hd : "Upcoming: ".data ++ a.data = "Check-in: ".data ++ b.data := by
    have h2 := congrArg String.data h
    rwa [show (upcomingTitle a).data = "Upcoming: ".data ++ a.data from data_append _ _,
      show (checkinTitle b).data = "Check-in: ".data ++ b.data from data_append _ _] at h2
  have h10 := congrArg (List.take 10) hd
  rw [show ("Upcoming: ".data ++ a.data).take 10 = "Upcoming: ".data from
        take_len_append "Upcoming: ".data a.data,
      show ("Check-in: ".data ++ b.data).take 10 = "Check-in: ".data from
        take_len_append "Check-in: ".data b.data] at h10
  exact absurd h10 (by decide)

/-- Exhaustive shape analysis of one `policyDecision`: silence, the sleep
immediate with its increment and guard, the bedtime immediate, the check-in
compose with its gate and timer update, or the upcoming compose. -/
theorem policy_cases (cfg : Config) (active upc : Option Entry) (ref mins : Int)
    (js : Bool) (now : Int) (st : NotifState) :
    policyDecision cfg active upc ref mins js now st = .silent st ∨
    (policyDecision cfg active upc ref mins js now st =
        .immediate "Current Task: Sleep" sleepMsg ⟨now, st.sleep_count + 1⟩ ∧
      st.sleep_count < 2) ∨
    (∃ m, policyDecision cfg active upc ref mins js now st = .immediate "Time for Bed!" m st) ∨
    (∃ n p, policyDecision cfg active upc ref mins js now st =
        .compose (checkinTitle n) p ⟨now, st.sleep_count⟩ ∧
      now - st.last ≥ cfg.notification_interval_seconds) ∨
    (∃ n p, policyDecision cfg active upc ref mins js now st = .compose (upcomingTitle n) p st) := by
  unfold policyDecision
  by_cases h1 : active.isSome = true ∧ strLower (activeTaskName active) ≠ "no specific task"
  · rw [if_pos h1]
    by_cases h2 : strLower (activeTaskName active) = "sleep" ∧ st.sleep_count < 2
    · rw [if_pos h2]
      by_cases h3 : now - ref ≤ 0 ∨ (now - ref ≥ 15 * 60 ∧ st.sleep_count = 1)
      · rw [if_pos h3]
        exact Or.inr (Or.inl ⟨rfl, h2.2⟩)
      · rw [if_neg h3]
        exact Or.inl rfl
    · rw [if_neg h2]
      by_cases h4 : now - st.last ≥ cfg.notification_interval_seconds
      · rw [if_pos h4]
        exact Or.inr (Or.inr (Or.inr (Or.inl ⟨_, _, rfl, h4⟩)))
      · rw [if_neg h4]
        exact Or.inl rfl
  · rw [if_neg h1]
    cases upc with
    | none => exact Or.inl rfl
    | some u =>
      dsimp only
      by_cases h5 : (0 ≤ ref - now ∧ ref - now ≤ cfg.minutes_before_task * 60) ∨ js = true
      · rw [if_pos h5]
        by_cases h6 : strLower u.task = "sleep"
        · rw [if_pos h6]
          exact Or.inr (Or.inr (Or.inl ⟨_, rfl⟩))
        · rw [if_neg h6]
          exact Or.inr (Or.inr (Or.inr (Or.inr ⟨_, _, rfl⟩)))
      · rw [if_neg h5]
        exact Or.inl rfl

/-- The dispatch of a compose never changes the state it is given, and any
emission carries the compose's title and a message satisfying `msgSpec`. -/
theorem dispatch_cases (apiKey : Option String) (transport : Nat → HttpResult)
    (upc : Option Entry) (aname title prompt : String) (st₂ : NotifState)
    (out : Option (String × String)) (st' : NotifState)
    (h : dispatchCompose apiKey transport upc aname title prompt st₂ = .ok (out, st')) :
    st' = st₂ ∧ (out = none ∨ ∃ m, out = some (title, m) ∧ msgSpec apiKey transport m) := by
  unfold dispatchCompose at h
  cases hL : get_llm_response prompt apiKey transport 3 with
  | error e =>
    rw [hL] at h
    exact absurd h (by simp)
  | ok r =>
    rw [hL] at h
    simp only [] at h
    by_cases hr : r = ""
    · rw [if_neg (by simp [hr])] at h
      by_cases hu : strContains title "Upcoming:" = true
      · rw [if_pos hu] at h
        cases upc with
        | none => exact absurd h (by simp)
        | some u =>
          simp only [Except.ok.injEq, Prod.mk.injEq] at h
          exact ⟨h.2.symm, Or.inr ⟨_, h.1.symm, r, ⟨prompt, hL⟩, Or.inr ⟨hr, Or.inl ⟨_, _, rfl⟩⟩⟩⟩
      · rw [if_neg hu] at h
        by_cases hc : strContains title "Check-in:" = true
        · rw [if_pos hc] at h
          simp only [Except.ok.injEq, Prod.mk.injEq] at h
          exact ⟨h.2.symm, Or.inr ⟨_, h.1.symm, r, ⟨prompt, hL⟩, Or.inr ⟨hr, Or.inr ⟨_, rfl⟩⟩⟩⟩
        · rw [if_neg hc] at h
          simp only [Except.ok.injEq, Prod.mk.injEq] at h
          exact ⟨h.2.symm, Or.inl h.1.symm⟩
    · rw [if_pos (by simp [hr])] at h
      simp only [Except.ok.injEq, Prod.mk.injEq] at h
      exact ⟨h.2.symm, Or.inr ⟨r, h.1.symm, r, ⟨prompt, hL⟩, Or.inl ⟨hr, rfl⟩⟩⟩

/-- Exhaustive shape analysis of one policy evaluation that returned without
an exception. -/
theorem gsn_cases (cfg : Config) (tt : List Entry) (now : Int) (apiKey : Option String)
    (transport : Nat → HttpResult) (st : NotifState) (out : Option (String × String))
    (st' : NotifState)
    (h : get_smart_notification cfg tt now apiKey transport st = .ok (out, st')) :
    (out = none ∧ st'.sleep_count = st.sleep_count) ∨
    (out = some ("Current Task: Sleep", sleepMsg) ∧ st' = ⟨now, st.sleep_count + 1⟩ ∧
      st.sleep_count < 2) ∨
    (∃ m, out = some ("Time for Bed!", m) ∧ st' = st) ∨
    (∃ n m, out = some (checkinTitle n, m) ∧ st' = ⟨now, st.sleep_count⟩ ∧
      now - st.last ≥ cfg.notification_interval_seconds ∧ msgSpec apiKey transport m) ∨
    (∃ n m, out = some (upcomingTitle n, m) ∧ st' = st ∧ msgSpec apiKey transport m) := by
  unfold get_smart_notification at h
  by_cases hemp : tt.isEmpty = true
  · rw [if_pos hemp] at h
    simp only [Except.ok.injEq, Prod.mk.injEq] at h
    exact Or.inl ⟨h.1.symm, by rw [h.2]⟩
  · rw [if_neg hemp] at h
    dsimp only at h
    cases hA : get_current_active_timetable_entry tt now (now - now % 86400) with
    | error e => rw [hA] at h; exact absurd h (by simp)
    | ok active =>
      rw [hA] at h
      cases hU : scanUpcoming (now - now % 86400) now cfg.grace_minutes_after_start
          (sortByTime tt) 0 with
      | error e => rw [hU] at h; exact absurd h (by simp)
      | ok q =>
        obtain ⟨upc, ref, mins, js⟩ := q
        rw [hU] at h
        dsimp only at h
        rcases policy_cases cfg active upc ref mins js now st with
          hp | ⟨hp, hlt⟩ | ⟨m, hp⟩ | ⟨n, p, hp, hge⟩ | ⟨n, p, hp⟩ <;> rw [hp] at h
        · simp only [Except.ok.injEq, Prod.mk.injEq] at h
          exact Or.inl ⟨h.1.symm, by rw [h.2]⟩
        · simp only [Except.ok.injEq, Prod.mk.injEq] at h
          exact Or.inr (Or.inl ⟨h.1.symm, h.2.symm, hlt⟩)
        · simp only [Except.ok.injEq, Prod.mk.injEq] at h
          exact Or.inr (Or.inr (Or.inl ⟨m, h.1.symm, h.2.symm⟩))
        · obtain ⟨hst, hout⟩ := dispatch_cases _ _ _ _ _ _ _ _ _ h
          rcases hout with rfl | ⟨m, rfl, hm⟩
          · exact Or.inl ⟨rfl, by rw [hst]⟩
          · exact Or.inr (Or.inr (Or.inr (Or.inl ⟨n, m, rfl, hst, hge, hm⟩)))
        · obtain ⟨hst, hout⟩ := dispatch_cases _ _ _ _ _ _ _ _ _ h
          rcases hout with rfl | ⟨m, rfl, hm⟩
          · exact Or.inl ⟨rfl, by rw [hst]⟩
          · exact Or.inr (Or.inr (Or.inr (Or.inr ⟨n, m, rfl, hst, hm⟩)))

/-- An entry the active scan steps over: it parses, its end is computable,
and both its start and its end lie strictly before `now`. -/
def passes (dayStart now : Int) : List Entry → Prop
  | [] => False
  | e :: rest => ∃ s en, startAt dayStart e = some s ∧ entryEndAt dayStart e rest = some en ∧
      en < now ∧ s < now

theorem scan_skip (dayStart now : Int) (e : Entry) (rest : List Entry) (b : Bool)
    (hp : passes dayStart now (e :: rest)) :
    scanActive dayStart now (e :: rest) b = scanActive dayStart now rest false := by
  obtain ⟨s, en, hs, hen, hlt1, hlt2⟩ := hp
  conv_lhs => rw [scanActive]
  rw [hs, hen]
  dsimp only
  rw [if_neg (by rintro ⟨-, h2⟩; omega), if_neg (by rintro ⟨-, h2⟩; omega)]

theorem scan_reaches (dayStart now : Int) :
    ∀ (i : Nat) (l : List Entry) (b : Bool) (hi : i < l.length),
      (∀ j, j < i → passes dayStart now (l.drop j)) →
      startAt dayStart (l.get ⟨i, hi⟩) = some now →
      (∃ en, entryEndAt dayStart (l.get ⟨i, hi⟩) (l.drop (i + 1)) = some en ∧ now ≤ en) →
      scanActive dayStart now l b = .ok (some (l.get ⟨i, hi⟩)) := by
  intro i
  induction i with
  | zero =>
    intro l b hi hprev hstart hend
    cases l with
    | nil => exact absurd hi (by simp)
    | cons e rest =>
      obtain ⟨en, hen, hle⟩ := hend
      rw [show (e :: rest : List Entry).get ⟨0, hi⟩ = e from rfl] at hstart hen ⊢
      simp only [List.drop_succ_cons, List.drop_zero] at hen
      unfold scanActive
      rw [hstart, hen]
      dsimp only
      rw [if_pos ⟨le_refl now, hle⟩]
  | succ i ih =>
    intro l b hi hprev hstart hend
    cases l with
    | nil => exact absurd hi (by simp)
    | cons e rest =>
      have h0 : passes dayStart now (e :: rest) := by
        have hp := hprev 0 (Nat.succ_pos i)
        rwa [List.drop_zero] at hp
      rw [scan_skip dayStart now e rest b h0]
      have hi' : i < rest.length := Nat.lt_of_succ_lt_succ hi
      rw [show (e :: rest : List Entry).get ⟨i + 1, hi⟩ = rest.get ⟨i, hi'⟩ from rfl] at hstart ⊢
      apply ih rest false hi' (fun j hj => hprev (j + 1) (Nat.succ_lt_succ hj)) hstart
      obtain ⟨en, hen, hle⟩ := hend
      refine ⟨en, ?_, hle⟩
      rw [show ((e :: rest : List Entry).drop (i + 1 + 1)) = rest.drop (i + 1) from rfl] at hen
      exact hen

theorem foldl_digits (ds : List Char) (hds : ds.all Char.isDigit = true) :
    ∀ st : Nat × Option Nat, (ds.foldl durStep st).1 = st.1 := by
  induction ds with
  | nil => intro st; rfl
  | cons c cs ih =>
    intro st
    simp only [List.all_cons, Bool.and_eq_true] at hds
    rw [List.foldl_cons, ih hds.2]
    simp [durStep, hds.1]

/-- Any emission whose title has the check-in shape comes from the check-in
branch: its gate held and the timer was set to `now`. -/
theorem checkin_emit_gate (cfg : Config) (tt : List Entry) (now : Int)
    (apiKey : Option String) (transport : Nat → HttpResult) (st : NotifState)
    (m : String) (st' : NotifState) (n : String)
    (h : get_smart_notification cfg tt now apiKey transport st =
      .ok (some (checkinTitle n, m), st')) :
    now - st.last ≥ cfg.notification_interval_seconds ∧ st'.last = now := by
  rcases gsn_cases cfg tt now apiKey transport st _ _ h with
    ⟨hnone, -⟩ | ⟨hout, -, -⟩ | ⟨m', hout, -⟩ | ⟨n', m', hout, hst, hge, -⟩ | ⟨n', m', hout, -, -⟩
  · exact absurd hnone (by simp)
  · simp only [Option.some.injEq, Prod.mk.injEq] at hout
    exact absurd hout.1 (checkin_ne_sleepTitle n)
  · simp only [Option.some.injEq, Prod.mk.injEq] at hout
    exact absurd hout.1 (checkin_ne_bedTitle n)
  · exact ⟨hge, by rw [hst]⟩
  · simp only [Option.some.injEq, Prod.mk.injEq] at hout
    exact absurd hout.1.symm (upcoming_ne_checkin n' n)

/-- How one evaluation changes the sleep counter: never down, up by exactly
one on a sleep emission (which requires the guard), unchanged otherwise. -/
theorem step_sleep_count (cfg : Config) (tt : List Entry) (now : Int)
    (apiKey : Option String) (transport : Nat → HttpResult) (st : NotifState)
    (out : Option (String × String)) (st' : NotifState)
    (h : get_smart_notification cfg tt now apiKey transport st = .ok (out, st')) :
    st.sleep_count ≤ st'.sleep_count ∧
    (isSleepSend out = true → st'.sleep_count = st.sleep_count + 1 ∧ st.sleep_count < 2) ∧
    (isSleepSend out = false → st'.sleep_count = st.sleep_count) := by
  rcases gsn_cases cfg tt now apiKey transport st _ _ h with
    ⟨rfl, hc⟩ | ⟨rfl, rfl, hlt⟩ | ⟨m, rfl, rfl⟩ | ⟨n, m, rfl, rfl, -, -⟩ | ⟨n, m, rfl, rfl, -⟩
  · exact ⟨le_of_eq hc.symm, fun hT => by simp [isSleepSend] at hT, fun _ => hc⟩
  · exact ⟨Nat.le_succ _, fun _ => ⟨rfl, hlt⟩, fun hF => by simp [isSleepSend] at hF⟩
  · exact ⟨le_refl _, fun hT => by simp [isSleepSend] at hT, fun _ => rfl⟩
  · refine ⟨le_refl _, fun hT => ?_, fun _ => rfl⟩
    rw [show isSleepSend (some (checkinTitle n, m)) =
        decide (checkinTitle n = "Current Task: Sleep") from rfl] at hT
    exact absurd (of_decide_eq_true hT) (checkin_ne_sleepTitle n)
  · refine ⟨le_refl _, fun hT => ?_, fun _ => rfl⟩
    rw [show isSleepSend (some (upcomingTitle n, m)) =
        decide (upcomingTitle n = "Current Task: Sleep") from rfl] at hT
    exact absurd (of_decide_eq_true hT) (upcoming_ne_sleepTitle n)

/-- The run-level bound: starting from a state with counter `c`, at most
`2 - c` immediate sleep notifications are ever emitted. -/
theorem run_bound (cfg : Config) (tt : List Entry) (apiKey : Option String) :
    ∀ (ticks : List (Int × (Nat → HttpResult))) (st : NotifState),
      countSleepSends (runTicks cfg tt apiKey ticks st).1 ≤ 2 - st.sleep_count := by
  intro ticks
  induction ticks with
  | nil => intro st; simp [runTicks, countSleepSends]
  | cons tk rest ih =>
    intro st
    obtain ⟨now, tr⟩ := tk
    rw [runTicks]
    cases hE : get_smart_notification cfg tt now apiKey tr st with
    | error e =>
      dsimp only
      simp [countSleepSends]
    | ok p =>
      obtain ⟨out, st₁⟩ := p
      dsimp only
      have hstep := step_sleep_count cfg tt now apiKey tr st out st₁ hE
      have hr := ih st₁
      by_cases hs : isSleepSend out = true
      · obtain ⟨heq, hlt⟩ := hstep.2.1 hs
        rw [show countSleepSends (out :: (runTicks cfg tt apiKey rest st₁).1) =
            countSleepSends (runTicks cfg tt apiKey rest st₁).1 + 1 from by
          simp [countSleepSends, List.countP_cons, hs]]
        omega
      · have hs' : isSleepSend out = false := by
          revert hs; cases isSleepSend out <;> simp
        have heq := hstep.2.2 hs'
        rw [show countSleepSends (out :: (runTicks cfg tt apiKey rest st₁).1) =
            countSleepSends (runTicks cfg tt apiKey rest st₁).1 from by
          simp [countSleepSends, List.countP_cons, hs']]
        omega

/-- Claim C10: a non-empty duration string with no unit character (such as
"abc" or "90") parses to 0 minutes, not to "no duration"; trailing digits
not followed by a unit contribute nothing; and only the empty input yields
the none result. -/
theorem claim10_duration :
    parse_duration "abc" = some 0 ∧ parse_duration "90" = some 0 ∧
    (∀ s ds : String, s ≠ "" → ds.data.all Char.isDigit = true →
      parse_duration (s ++ ds) = parse_duration s) ∧
    (∀ s : String, parse_duration s = none ↔ s = "") := by
  refine ⟨by decide, by decide, ?_, ?_⟩
  · intro s ds hs hds
    have hne : s ++ ds ≠ "" := by
      intro hEq
      apply hs
      have hdata := congrArg String.data hEq
      rw [data_append] at hdata
      have h2 : s.data = [] := (List.append_eq_nil.mp hdata).1
      exact congrArg String.mk h2
    have h1 : parse_duration (s ++ ds) = some (((s ++ ds).data.foldl durStep (0, none)).1) := by
      unfold parse_duration
      rw [if_neg hne]
    have h2 : parse_duration s = some ((s.data.foldl durStep (0, none)).1) := by
      unfold parse_duration
      rw [if_neg hs]
    rw [h1, h2, data_append, List.foldl_append, foldl_digits ds.data hds]
  · intro s
    unfold parse_duration
    by_cases hs : s = ""
    · rw [if_pos hs]
      simp [hs]
    · rw [if_neg hs]
      simp [hs]

/-- Witness for C10 at "1h" followed by the trailing digits "30". -/
theorem claim10_witness : parse_duration ("1h" ++ "30") = parse_duration "1h" :=
  claim10_duration.2.2.1 "1h" "30" (by decide) (by decide)

/-- Claim C9: the composition client does not absorb every response shape —
a 2xx response whose JSON body lacks the expected choices/message/content
path raises a KeyError to the caller (first conjunct), while transport
errors are caught and produce the diagnostic string (second conjunct). -/
theorem claim9_keyerror :
    get_llm_response "any prompt" (some "key") (fun _ => .ok (.json none)) 3 =
      .error .keyError ∧
    get_llm_response "any prompt" (some "key") (fun _ => .netError "connection reset") 3 =
      .ok "API error: connection reset... (Check app.log for details)" :=
  ⟨rfl, rfl⟩

/-- Claim C7: a timetable containing one malformed time string makes
active-entry resolution abort with a ValueError — the entry is not skipped:
without the malformed entry the same instant resolves fine, and the whole
policy evaluation propagates the exception. -/
theorem claim7_malformed_aborts :
    get_current_active_timetable_entry
      [loadEntry "09:00" "Good" "" "", loadEntry "zz:zz" "Bad" "" ""] 36000 0 =
      .error .valueError ∧
    get_current_active_timetable_entry [loadEntry "09:00" "Good" "" ""] 36000 0 =
      .ok (some (loadEntry "09:00" "Good" "" "")) ∧
    get_smart_notification defaultConfig
      [loadEntry "09:00" "Good" "" "", loadEntry "zz:zz" "Bad" "" ""] 36000 (some "k")
      (fun _ => .ok (.json (some "hi"))) ⟨0, 0⟩ = .error .valueError :=
  ⟨rfl, rfl, rfl⟩

/-- Claim C4 counterexample: timetable [A at 08:00 for 30m, B at 09:00],
`now` exactly 09:00 (so `now` strictly exceeds A's start plus duration) —
resolution returns entry B itself, not the previous entry A as claimed. -/
theorem claim4_counterexample :
    get_current_active_timetable_entry
      [loadEntry "08:00" "A" "30m" "", loadEntry "09:00" "B" "" ""] 32400 0 =
      .ok (some (loadEntry "09:00" "B" "" "")) ∧
    loadEntry "09:00" "B" "" "" ≠ loadEntry "08:00" "A" "30m" "" :=
  ⟨rfl, by decide⟩

/-- Claim C4 (amended): when `now` equals the start of the sorted entry at
index `i`, every earlier entry's window (start and end) lies strictly before
`now`, and entry `i`'s own end is not before `now`, resolution returns entry
`i` itself — the carry-over to entry `i-1` never happens. -/
theorem claim4_boundary (tt : List Entry) (now dayStart : Int) (i : Nat)
    (hi : i < (sortByTime tt).length)
    (hprev : ∀ j, j < i → passes dayStart now ((sortByTime tt).drop j))
    (hstart : startAt dayStart ((sortByTime tt).get ⟨i, hi⟩) = some now)
    (hend : ∃ en, entryEndAt dayStart ((sortByTime tt).get ⟨i, hi⟩)
        ((sortByTime tt).drop (i + 1)) = some en ∧ now ≤ en) :
    get_current_active_timetable_entry tt now dayStart =
      .ok (some ((sortByTime tt).get ⟨i, hi⟩)) :=
  scan_reaches dayStart now i (sortByTime tt) true hi hprev hstart hend

/-- Witness for C4 (amended) on a second day: [A at 08:00 for 30m, B at
09:00], `now` = day start + 09:00. -/
theorem claim4_witness :
    get_current_active_timetable_entry
      [loadEntry "08:00" "A" "30m" "", loadEntry "09:00" "B" "" ""] 118800 86400 =
      .ok (some (loadEntry "09:00" "B" "" "")) := by
  have h := claim4_boundary
    [loadEntry "08:00" "A" "30m" "", loadEntry "09:00" "B" "" ""] 118800 86400 1
    (by decide)
    (fun j hj => by
      have hj0 : j = 0 := Nat.lt_one_iff.mp hj
      subst hj0
      exact ⟨115200, 117000, rfl, rfl, by decide, by decide⟩)
    rfl
    ⟨172799, rfl, by decide⟩
  exact h

/-- Claim C1 counterexample: with a failing transport, the check-in compose
emission hands the client's raw diagnostic string to the notifier — it is
neither of the two deterministic fallback strings. -/
theorem claim1_counterexample :
    get_smart_notification defaultConfig [loadEntry "08:00" "Work" "" ""] 30000 (some "k")
      (fun _ => .netError "boom") ⟨0, 0⟩ =
      .ok (some ("Check-in: Work", "API error: boom... (Check app.log for details)"),
        ⟨30000, 0⟩) ∧
    get_llm_response
      ("Current task: 'Work' with notes: ''.\nProvide a concise (under 100 chars), encouraging check-in for this task.")
      (some "k") (fun _ => .netError "boom") 3 =
      .ok "API error: boom... (Check app.log for details)" ∧
    ("API error: boom... (Check app.log for details)" : String) ≠
      "Prepare for: Work at 08:00." ∧
    ("API error: boom... (Check app.log for details)" : String) ≠ "Doing: Work. Keep it up!" :=
  ⟨rfl, rfl, by decide, by decide⟩

/-- Claim C1 (amended): the message of any compose emission (check-in or
upcoming title) is exactly the string the composition client returned —
including its nonempty diagnostic strings on failure — and one of the two
deterministic fallback shapes only when the client returned the empty
string. -/
theorem claim1_compose_message (cfg : Config) (tt : List Entry) (now : Int)
    (apiKey : Option String) (transport : Nat → HttpResult) (st : NotifState)
    (t m : String) (st' : NotifState) (n : String)
    (h : get_smart_notification cfg tt now apiKey transport st = .ok (some (t, m), st'))
    (ht : t = checkinTitle n ∨ t = upcomingTitle n) :
    msgSpec apiKey transport m := by
  rcases gsn_cases cfg tt now apiKey transport st _ _ h with
    ⟨hnone, -⟩ | ⟨hout, -, -⟩ | ⟨m', hout, -⟩ | ⟨n', m', hout, -, -, hm⟩ | ⟨n', m', hout, -, hm⟩
  · exact absurd hnone (by simp)
  · simp only [Option.some.injEq, Prod.mk.injEq] at hout
    rcases ht with rfl | rfl
    · exact absurd hout.1 (checkin_ne_sleepTitle n)
    · exact absurd hout.1 (upcoming_ne_sleepTitle n)
  · simp only [Option.some.injEq, Prod.mk.injEq] at hout
    rcases ht with rfl | rfl
    · exact absurd hout.1 (checkin_ne_bedTitle n)
    · exact absurd hout.1 (upcoming_ne_bedTitle n)
  · simp only [Option.some.injEq, Prod.mk.injEq] at hout
    rw [hout.2]
    exact hm
  · simp only [Option.some.injEq, Prod.mk.injEq] at hout
    rw [hout.2]
    exact hm

/-- Witness for C1 (amended): a successful compose hands over the client's
text. -/
theorem claim1_witness :
    msgSpec (some "k") (fun _ => .ok (.json (some "Stay focused!"))) "Stay focused!" :=
  claim1_compose_message defaultConfig [loadEntry "08:00" "Work" "" ""] 30000 (some "k")
    (fun _ => .ok (.json (some "Stay focused!"))) ⟨0, 0⟩ "Check-in: Work" "Stay focused!"
    ⟨30000, 0⟩ "Work" rfl (Or.inl rfl)

/-- Claim C2: the immediate sleep notification is emitted at most
`max_sleep_notifications` (= 2) times per process lifetime: each emission
increments the counter and requires the `count < 2` guard, the counter is
never decreased, and any run from the initial state emits at most 2. -/
theorem claim2_sleep_cap :
    (∀ (cfg : Config) (tt : List Entry) (now : Int) (apiKey : Option String)
        (transport : Nat → HttpResult) (st : NotifState) (out : Option (String × String))
        (st' : NotifState),
      get_smart_notification cfg tt now apiKey transport st = .ok (out, st') →
      st.sleep_count ≤ st'.sleep_count ∧
      (isSleepSend out = true → st'.sleep_count = st.sleep_count + 1 ∧ st.sleep_count < 2) ∧
      (isSleepSend out = false → st'.sleep_count = st.sleep_count)) ∧
    (∀ (cfg : Config) (tt : List Entry) (apiKey : Option String)
        (ticks : List (Int × (Nat → HttpResult))) (last0 : Int),
      countSleepSends (runTicks cfg tt apiKey ticks ⟨last0, 0⟩).1 ≤ 2) :=
  ⟨step_sleep_count, fun cfg tt apiKey ticks last0 => run_bound cfg tt apiKey ticks ⟨last0, 0⟩⟩

/-- Witness for C2: three ticks inside one sleep window emit exactly two
immediate sleep notifications. -/
theorem claim2_witness :
    ((⟨0, 0⟩ : NotifState).sleep_count ≤ (⟨79200, 1⟩ : NotifState).sleep_count ∧
      (isSleepSend (some ("Current Task: Sleep", sleepMsg)) = true →
        (⟨79200, 1⟩ : NotifState).sleep_count = (⟨0, 0⟩ : NotifState).sleep_count + 1 ∧
          (⟨0, 0⟩ : NotifState).sleep_count < 2) ∧
      (isSleepSend (some ("Current Task: Sleep", sleepMsg)) = false →
        (⟨79200, 1⟩ : NotifState).sleep_count = (⟨0, 0⟩ : NotifState).sleep_count)) ∧
    countSleepSends (runTicks defaultConfig [loadEntry "22:00" "Sleep" "" ""] (some "k")
      [(79200, fun _ => .ok (.json (some "zz"))), (79200, fun _ => .ok (.json (some "zz"))),
        (79200, fun _ => .ok (.json (some "zz")))] ⟨0, 0⟩).1 ≤ 2 :=
  ⟨claim2_sleep_cap.1 defaultConfig [loadEntry "22:00" "Sleep" "" ""] 79200 (some "k")
      (fun _ => .ok (.json (some "zz"))) ⟨0, 0⟩ (some ("Current Task: Sleep", sleepMsg))
      ⟨79200, 1⟩ rfl,
    claim2_sleep_cap.2 defaultConfig [loadEntry "22:00" "Sleep" "" ""] (some "k")
      [(79200, fun _ => .ok (.json (some "zz"))), (79200, fun _ => .ok (.json (some "zz"))),
        (79200, fun _ => .ok (.json (some "zz")))] 0⟩

/-- Claim C3: a check-in emission requires `now - last ≥ interval` and sets
`last := now`, so an immediately following evaluation (advanced by less than
the interval) emits no check-in. -/
theorem claim3_checkin_gate :
    (∀ (cfg : Config) (tt : List Entry) (now : Int) (apiKey : Option String)
        (transport : Nat → HttpResult) (st : NotifState) (m : String) (st' : NotifState)
        (n : String),
      get_smart_notification cfg tt now apiKey transport st =
        .ok (some (checkinTitle n, m), st') →
      now - st.last ≥ cfg.notification_interval_seconds ∧ st'.last = now) ∧
    (∀ (cfg : Config) (tt : List Entry) (now : Int) (apiKey : Option String)
        (transport : Nat → HttpResult) (st : NotifState) (m : String) (st₁ : NotifState)
        (n : String) (now₂ : Int) (apiKey₂ : Option String) (transport₂ : Nat → HttpResult)
        (out₂ : Option (String × String)) (st₂ : NotifState),
      get_smart_notification cfg tt now apiKey transport st =
        .ok (some (checkinTitle n, m), st₁) →
      now₂ - now < cfg.notification_interval_seconds →
      get_smart_notification cfg tt now₂ apiKey₂ transport₂ st₁ = .ok (out₂, st₂) →
      ∀ (t₂ m₂ n₂ : String), out₂ = some (t₂, m₂) → t₂ ≠ checkinTitle n₂) := by
  constructor
  · exact fun cfg tt now apiKey transport st m st' n h =>
      checkin_emit_gate cfg tt now apiKey transport st m st' n h
  · intro cfg tt now apiKey transport st m st₁ n now₂ apiKey₂ transport₂ out₂ st₂ h1 hlt h2
    intro t₂ m₂ n₂ hout ht
    have hg1 := checkin_emit_gate cfg tt now apiKey transport st m st₁ n h1
    rw [hout, ht] at h2
    have hg2 := checkin_emit_gate cfg tt now₂ apiKey₂ transport₂ st₁ m₂ st₂ n₂ h2
    rw [hg1.2] at hg2
    obtain ⟨hgA, -⟩ := hg2
    omega

/-- Witness for C3: a first tick fires the check-in (gate passed, timer
set), discharging the hypotheses at a concrete input. -/
theorem claim3_witness :
    (30000 : Int) - (⟨0, 0⟩ : NotifState).last ≥ defaultConfig.notification_interval_seconds ∧
    (⟨30000, 0⟩ : NotifState).last = 30000 :=
  claim3_checkin_gate.1 defaultConfig [loadEntry "08:00" "Work" "" ""] 30000 (some "k")
    (fun _ => .ok (.json (some "go"))) ⟨0, 0⟩ "go" ⟨30000, 0⟩ "Work" rfl

/-- Claim C5 counterexample: active entry Sleep 13:00 for 1h, another entry
at 20:00, `now` = 13:30, counter 0.  Elapsed time from the active entry's
own start is 1800 s, which satisfies neither claimed firing condition, yet
the immediate sleep notification fires (the code measures from the upcoming
scan's `task_dt_local`, here 20:00). -/
theorem claim5_counterexample :
    get_smart_notification defaultConfig
      [loadEntry "13:00" "Sleep" "1h" "", loadEntry "20:00" "X" "" ""] 48600 (some "k")
      (fun _ => .ok (.json (some "zz"))) ⟨0, 0⟩ =
      .ok (some ("Current Task: Sleep", sleepMsg), ⟨48600, 1⟩) ∧
    get_current_active_timetable_entry
      [loadEntry "13:00" "Sleep" "1h" "", loadEntry "20:00" "X" "" ""] 48600
      (48600 - 48600 % 86400) = .ok (some (loadEntry "13:00" "Sleep" "1h" "")) ∧
    startAt (48600 - 48600 % 86400) (loadEntry "13:00" "Sleep" "1h" "") = some 46800 ∧
    ¬((48600 : Int) - 46800 ≤ 0 ∨ ((48600 : Int) - 46800 ≥ 15 * 60 ∧ (0 : Nat) = 1)) :=
  ⟨rfl, rfl, rfl, by decide⟩

/-- Claim C5 (amended): with an active sleep entry and counter below the
cap, the immediate sleep notification fires iff `now - ref ≤ 0` or
(`now - ref ≥ 15 min` and counter = 1), where `ref` is the reference
instant left behind by the upcoming scan (the first entry starting at or
after `now - grace`, else the last sorted entry's start) — not necessarily
the active entry's own start. -/
theorem claim5_sleep_reference (cfg : Config) (tt : List Entry) (now : Int)
    (apiKey : Option String) (transport : Nat → HttpResult) (st : NotifState) (e : Entry)
    (upc : Option Entry) (ref mins : Int) (js : Bool)
    (hA : get_current_active_timetable_entry tt now (now - now % 86400) = .ok (some e))
    (hsleep : strLower e.task = "sleep") (hcnt : st.sleep_count < 2)
    (hU : scanUpcoming (now - now % 86400) now cfg.grace_minutes_after_start (sortByTime tt) 0 =
      .ok (upc, ref, mins, js)) :
    (∃ m st', get_smart_notification cfg tt now apiKey transport st =
        .ok (some ("Current Task: Sleep", m), st')) ↔
      (now - ref ≤ 0 ∨ (now - ref ≥ 15 * 60 ∧ st.sleep_count = 1)) := by
  have hne : tt.isEmpty = false := by
    cases tt with
    | nil =>
      rw [show get_current_active_timetable_entry [] now (now - now % 86400) = .ok none
        from rfl] at hA
      exact absurd hA (by simp)
    | cons a l => rfl
  have hp : policyDecision cfg (some e) upc ref mins js now st =
      if now - ref ≤ 0 ∨ (now - ref ≥ 15 * 60 ∧ st.sleep_count = 1) then
        .immediate "Current Task: Sleep" sleepMsg ⟨now, st.sleep_count + 1⟩
      else .silent st := by
    unfold policyDecision
    rw [if_pos ⟨rfl, by rw [show activeTaskName (some e) = e.task from rfl, hsleep]; decide⟩,
      if_pos ⟨by rw [show activeTaskName (some e) = e.task from rfl]; exact hsleep, hcnt⟩]
  by_cases hc : now - ref ≤ 0 ∨ (now - ref ≥ 15 * 60 ∧ st.sleep_count = 1)
  · have hgsn : get_smart_notification cfg tt now apiKey transport st =
        .ok (some ("Current Task: Sleep", sleepMsg), ⟨now, st.sleep_count + 1⟩) := by
      unfold get_smart_notification
      rw [if_neg (by simp [hne])]
      dsimp only
      rw [hA, hU]
      dsimp only
      rw [hp, if_pos hc]
    rw [hgsn]
    exact ⟨fun _ => hc, fun _ => ⟨sleepMsg, ⟨now, st.sleep_count + 1⟩, rfl⟩⟩
  · have hgsn : get_smart_notification cfg tt now apiKey transport st = .ok (none, st) := by
      unfold get_smart_notification
      rw [if_neg (by simp [hne])]
      dsimp only
      rw [hA, hU]
      dsimp only
      rw [hp, if_neg hc]
    rw [hgsn]
    constructor
    · rintro ⟨m, st', hx⟩
      exact absurd hx (by simp)
    · exact fun h => absurd h hc

/-- Witness for C5 (amended) at the 13:30 scenario: the scan reference is
20:00, `now - ref ≤ 0` holds, and the notification indeed fires. -/
theorem claim5_witness :
    ∃ m st', get_smart_notification defaultConfig
      [loadEntry "13:00" "Sleep" "1h" "", loadEntry "20:00" "X" "" ""] 48600 (some "k")
      (fun _ => .ok (.json (some "zz"))) ⟨0, 0⟩ =
      .ok (some ("Current Task: Sleep", m), st') :=
  (claim5_sleep_reference defaultConfig
    [loadEntry "13:00" "Sleep" "1h" "", loadEntry "20:00" "X" "" ""] 48600 (some "k")
    (fun _ => .ok (.json (some "zz"))) ⟨0, 0⟩ (loadEntry "13:00" "Sleep" "1h" "")
    (some (loadEntry "20:00" "X" "" "")) 72000 390 false rfl rfl (by decide) rfl).mpr
    (Or.inl (by decide))

/-- Claim C6 counterexample: at 08:45 before an entry at 09:00 (lead 15
minutes), with an active Wake entry whose check-in gate is closed, no
active-branch notification fires — and the upcoming branch does not fire
either, because the code skips it whenever an active, non-sentinel entry
exists. -/
theorem claim6_counterexample :
    get_smart_notification defaultConfig
      [loadEntry "08:00" "Wake" "" "", loadEntry "09:00" "Work" "" ""] 31500 (some "k")
      (fun _ => .ok (.json (some "go"))) ⟨31400, 0⟩ = .ok (none, ⟨31400, 0⟩) := rfl

/-- Claim C6 (amended): when the policy reaches the upcoming branch (no
active entry, or the active task is the sentinel name), an entry at 09:00
fires at 08:45 (15 minutes inclusive), does not fire at 08:44, and fires
within the 2-minute grace after 09:00. -/
theorem claim6_upcoming_window :
    get_smart_notification defaultConfig [loadEntry "09:00" "Work" "" ""] 31500 (some "k")
      (fun _ => .ok (.json (some "go"))) ⟨0, 0⟩ =
      .ok (some ("Upcoming: Work", "go"), ⟨0, 0⟩) ∧
    get_smart_notification defaultConfig [loadEntry "09:00" "Work" "" ""] 31440 (some "k")
      (fun _ => .ok (.json (some "go"))) ⟨0, 0⟩ = .ok (none, ⟨0, 0⟩) ∧
    get_smart_notification defaultConfig [loadEntry "09:00" "no specific task" "" ""] 32460
      (some "k") (fun _ => .ok (.json (some "go"))) ⟨0, 0⟩ =
      .ok (some ("Upcoming: no specific task", "go"), ⟨0, 0⟩) :=
  ⟨rfl, rfl, rfl⟩

/-- Claim C8 counterexample: on the spec's end-to-end scenario the decision
is the active check-in "Check-in: Wake" (the epoch sentinel makes the gate
pass), not "Upcoming: Work". -/
theorem claim8_counterexample :
    get_smart_notification defaultConfig
      [loadEntry "08:00" "Wake" "" "", loadEntry "09:00" "Work" "4h" "",
        loadEntry "13:00" "Sleep" "" ""] 31800 (some "k")
      (fun _ => .ok (.json (some "ok"))) ⟨0, 0⟩ =
      .ok (some ("Check-in: Wake", "ok"), ⟨31800, 0⟩) ∧
    ("Check-in: Wake" : String) ≠ "Upcoming: Work" :=
  ⟨rfl, by decide⟩

/-- Claim C8 (amended): on the timetable [08:00 Wake, 09:00 Work for 4h,
13:00 Sleep] at 08:50 from the initial state, one evaluation yields a
compose decision with title "Check-in: Wake" — the active check-in takes
precedence because `now` minus the epoch sentinel exceeds the interval —
whatever nonempty text the client composes. -/
theorem claim8_scenario (r : String) (hr : r ≠ "") :
    get_smart_notification defaultConfig
      [loadEntry "08:00" "Wake" "" "", loadEntry "09:00" "Work" "4h" "",
        loadEntry "13:00" "Sleep" "" ""] 31800 (some "k")
      (fun _ => .ok (.json (some r))) ⟨0, 0⟩ =
      .ok (some ("Check-in: Wake", r), ⟨31800, 0⟩) := by
  have hstep : get_smart_notification defaultConfig
      [loadEntry "08:00" "Wake" "" "", loadEntry "09:00" "Work" "4h" "",
        loadEntry "13:00" "Sleep" "" ""] 31800 (some "k")
      (fun _ => .ok (.json (some r))) ⟨0, 0⟩ =
      dispatchCompose (some "k") (fun _ => .ok (.json (some r)))
        (some (loadEntry "09:00" "Work" "4h" "")) "Wake" (checkinTitle "Wake")
        ("Current task: 'Wake' with notes: ''.\nProvide a concise (under 100 chars), encouraging check-in for this task.")
        ⟨31800, 0⟩ := rfl
  rw [hstep]
  unfold dispatchCompose
  rw [show get_llm_response
      ("Current task: 'Wake' with notes: ''.\nProvide a concise (under 100 chars), encouraging check-in for this task.")
      (some "k") (fun _ => .ok (.json (some r))) 3 = .ok r from rfl]
  dsimp only
  rw [if_pos (by simp [hr])]
  rfl

/-- Witness for C8 (amended) with the composed text "On it!". -/
theorem claim8_witness :
    get_smart_notification defaultConfig
      [loadEntry "08:00" "Wake" "" "", loadEntry "09:00" "Work" "4h" "",
        loadEntry "13:00" "Sleep" "" ""] 31800 (some "k")
      (fun _ => .ok (.json (some "On it!"))) ⟨0, 0⟩ =
      .ok (some ("Check-in: Wake", "On it!"), ⟨31800, 0⟩) :=
  claim8_scenario "On it!" (by decide)

end AICal
